import Mathlib

/-!
Verification of the client-side caching and async-orchestration layer of a
clinical-records viewer (React app: `App.js`, `PatientChat.js`,
`PatientList.js`).

The JavaScript source is shallowly embedded: each stateful UI flow becomes a
state record plus explicit step functions (one per event: user action or
network-response continuation).  `JSON.stringify`/`JSON.parse` of the browser
are modelled at the JSON-value level (a `Json` inductive): `localStorage`
holds either nothing, an unparseable payload, or a parsed JSON value.
-/

namespace DemoMymr

/-- Model of a JSON value, as produced by `response.json()` and stored by
`JSON.stringify`/`JSON.parse`. Numbers are modelled as integers (no numeric
field of the cache payload is ever used). -/
inductive Json where
  | null : Json
  | bool (b : Bool) : Json
  | num (n : Int) : Json
  | str (s : String) : Json
  | arr (elems : List Json) : Json
  | obj (fields : List (String × Json)) : Json

/-- JavaScript truthiness of a JSON value: `null`, `false`, `0` and `""` are
falsy; arrays and objects are always truthy. -/
def Json.truthy : Json → Bool
  | .null => false
  | .bool b => b
  | .num n => n != 0
  | .str s => s != ""
  | .arr _ => true
  | .obj _ => true

/-- The normalized profile summary held for a patient
(`{medication_summary, lifestyle_recommendations, condition_summary}`). -/
structure ProfileSummary where
  medication_summary : String
  lifestyle_recommendations : String
  condition_summary : String
  deriving Repr, DecidableEq

/-- One value of the persistent profile cache: either a fetched profile
summary, or the explicit failure marker (`null` in the JavaScript source:
`errorCache = { ...profileCache, [patientName]: null }`). -/
inductive CacheEntry where
  | sentinel : CacheEntry
  | profile (p : ProfileSummary) : CacheEntry
  deriving Repr, DecidableEq

/-- The JavaScript value a cache entry is stored as: the sentinel is `null`,
a profile is the plain three-field object. -/
def encodeEntry : CacheEntry → Json
  | .sentinel => .null
  | .profile p => .obj
      [("medication_summary", .str p.medication_summary),
       ("lifestyle_recommendations", .str p.lifestyle_recommendations),
       ("condition_summary", .str p.condition_summary)]

/-- Property access `l["k"]` on a parsed JSON object, expecting a string. -/
def getStrField (fields : List (String × Json)) (k : String) : Option String :=
  match fields.find? (fun kv => kv.1 = k) with
  | some (_, .str s) => some s
  | _ => none

/-- Reading one parsed cache value back as a typed entry: `null` is the
failure sentinel; an object is read through its three summary fields (the
fields the app dereferences when it consumes a cached entry). -/
def decodeEntry : Json → Option CacheEntry
  | .null => some .sentinel
  | .obj fields =>
      match getStrField fields "medication_summary",
            getStrField fields "lifestyle_recommendations",
            getStrField fields "condition_summary" with
      | some m, some l, some c => some (.profile ⟨m, l, c⟩)
      | _, _, _ => none
  | _ => none

/-- Reading the fields of a parsed cache object back into the key→entry
mapping, entry by entry. -/
def decodeEntries : List (String × Json) → Option (List (String × CacheEntry))
  | [] => some []
  | (k, j) :: rest =>
      match decodeEntry j, decodeEntries rest with
      | some e, some es => some ((k, e) :: es)
      | _, _ => none

/-- The whole cache mapping serialized as one JSON object
(`JSON.stringify(updatedCache)` at the value level). -/
def encodeCache (m : List (String × CacheEntry)) : Json :=
  .obj (m.map (fun kv => (kv.1, encodeEntry kv.2)))

/-- The whole cache mapping read back from a parsed payload; anything but an
object of cache-shaped values yields no mapping. -/
def decodeCache : Json → Option (List (String × CacheEntry))
  | .obj fields => decodeEntries fields
  | _ => none

/-- JavaScript object update `{ ...m, [k]: v }`: an existing key keeps its
position and gets the new value, a fresh key is appended at the end. -/
def setKey (m : List (String × CacheEntry)) (k : String) (v : CacheEntry) :
    List (String × CacheEntry) :=
  if m.any (fun kv => kv.1 = k) then
    m.map (fun kv => if kv.1 = k then (k, v) else kv)
  else
    m ++ [(k, v)]

/-- Object property lookup `m[k]`: `none` models `undefined` (key absent). -/
def lookupKey (m : List (String × CacheEntry)) (k : String) : Option CacheEntry :=
  (m.find? (fun kv => kv.1 = k)).map (fun kv => kv.2)

/-- What `localStorage.getItem(PROFILE_CACHE_KEY)` can hand to the load
effect: no record at all, a string `JSON.parse` throws on, or a successfully
parsed JSON value. -/
inductive StoredPayload where
  | absent : StoredPayload
  | malformed (s : String) : StoredPayload
  | parsed (j : Json) : StoredPayload

/-- The value `profileCache` holds right after the startup load effect
(`App.js` lines 16–26): with nothing stored (`savedCache` falsy) the
initial `{}` is kept; when `JSON.parse` throws, the error is caught and
logged and the initial `{}` is kept; a payload that parses is installed
as-is by `setProfileCache(JSON.parse(savedCache))` — the code performs no
validation of its shape. -/
def loadFromStorage : StoredPayload → Json
  | .absent => .obj []
  | .malformed _ => .obj []
  | .parsed j => j

/-- Property access `v[key]` on a parsed JSON value: `none` models
`undefined` (key absent, or the value not an object). -/
def jsGet : Json → String → Option Json
  | .obj fields, k => (fields.find? (fun kv => kv.1 = k)).map (fun kv => kv.2)
  | _, _ => none

/-- State of the `App` component: the selected patient, the in-memory
profile cache, the durable copy in `localStorage`, the set of profile
fetches still in flight, and the log of profile requests issued so far. -/
structure AppState where
  selectedPatient : Option String
  profileCache : List (String × CacheEntry)
  storage : StoredPayload
  pending : List String
  fetchLog : List String

/-- Initial `App` state: nothing selected, empty cache, empty storage. -/
def initApp : AppState :=
  { selectedPatient := none, profileCache := [], storage := .absent,
    pending := [], fetchLog := [] }

/-- Events driving the `App` cache-through flow: a patient selection, and
the resolution (success or failure) of an in-flight profile fetch. -/
inductive AppEvent where
  | select (name : String) : AppEvent
  | resolveOk (name : String) (p : ProfileSummary) : AppEvent
  | resolveErr (name : String) : AppEvent
  deriving Repr, DecidableEq

/-- One cache write, the spec's `put(id, v)`, as performed by either branch
of `fetchAndCacheProfile`: update the in-memory mapping
(`{ ...profileCache, [id]: v }`) and synchronously flush the whole mapping,
serialized as one unit, to durable storage
(`localStorage.setItem(PROFILE_CACHE_KEY, JSON.stringify(updatedCache))`). -/
def put (s : AppState) (id : String) (v : CacheEntry) : AppState :=
  let updated := setKey s.profileCache id v
  { s with profileCache := updated, storage := .parsed (encodeCache updated) }

/-- A sequence of cache writes applied in order. -/
def applyPuts (s : AppState) (writes : List (String × CacheEntry)) : AppState :=
  writes.foldl (fun st kv => put st kv.1 kv.2) s

/-- The success continuation of `fetchAndCacheProfile` (`App.js` lines
29–36): write the fetched data through `put` and retire the in-flight
fetch. -/
def fetchAndCacheProfileOk (s : AppState) (name : String) (p : ProfileSummary) :
    AppState :=
  { put s name (.profile p) with pending := s.pending.erase name }

/-- The failure continuation of `fetchAndCacheProfile` (`App.js` lines
37–43): write the `null` sentinel through `put` and retire the in-flight
fetch. -/
def fetchAndCacheProfileErr (s : AppState) (name : String) : AppState :=
  { put s name .sentinel with pending := s.pending.erase name }

/-- `handlePatientSelect` (`App.js` lines 46–52): record the selection and,
when the cache lookup is falsy (`!profileCache[patientName]` — true both for
an absent key and for the `null` sentinel), start `fetchAndCacheProfile`,
which issues the profile request. -/
def handlePatientSelect (s : AppState) (name : String) : AppState :=
  let s1 := { s with selectedPatient := some name }
  let entryTruthy :=
    match lookupKey s.profileCache name with
    | none => false
    | some e => (encodeEntry e).truthy
  if !entryTruthy then
    { s1 with pending := s1.pending ++ [name], fetchLog := s1.fetchLog ++ [name] }
  else
    s1

/-- One step of the `App` flow. A resolution event for a fetch that is not
in flight has no continuation to run and leaves the state unchanged. -/
def stepApp (s : AppState) : AppEvent → AppState
  | .select name => handlePatientSelect s name
  | .resolveOk name p =>
      if name ∈ s.pending then fetchAndCacheProfileOk s name p else s
  | .resolveErr name =>
      if name ∈ s.pending then fetchAndCacheProfileErr s name else s

/-- A run of the `App` flow from a state through a list of events. -/
def runApp (s : AppState) (evts : List AppEvent) : AppState :=
  evts.foldl stepApp s

/-- The JavaScript string-or-default idiom `x || d` for a possibly-absent
string: both `undefined` (absent) and the empty string are falsy, so either
yields the default. -/
def jsOrElse (x : Option String) (d : String) : String :=
  match x with
  | none => d
  | some s => if s = "" then d else s

/-- The raw `summary` object of a `/summary/{name}` response; each field may
be absent. -/
structure RawSummary where
  medication_summary : Option String
  lifestyle_recommendations : Option String
  condition_summary : Option String
  deriving Repr, DecidableEq

/-- The raw body of a `/summary/{name}` response; the `summary` member
itself may be absent (the source reads it with optional chaining,
`data.summary?.…`). -/
structure RawSummaryResponse where
  summary : Option RawSummary
  deriving Repr, DecidableEq

/-- Placeholder shown when a raw response carries no medication summary. -/
def medicationPlaceholder : String := "No medication information available."

/-- Placeholder shown when a raw response carries no lifestyle
recommendations. -/
def lifestylePlaceholder : String := "No lifestyle recommendations available."

/-- Placeholder shown when a raw response carries no condition summary. -/
def conditionPlaceholder : String := "No condition information available."

/-- The normalization `fetchPatientSummary` applies before storing profile
data (`PatientChat.js` lines 32–36): each of the three fields is
`data.summary?.field || placeholder`. -/
def normalizeSummary (data : RawSummaryResponse) : ProfileSummary :=
  { medication_summary :=
      jsOrElse (data.summary.bind (fun s => s.medication_summary))
        medicationPlaceholder,
    lifestyle_recommendations :=
      jsOrElse (data.summary.bind (fun s => s.lifestyle_recommendations))
        lifestylePlaceholder,
    condition_summary :=
      jsOrElse (data.summary.bind (fun s => s.condition_summary))
        conditionPlaceholder }

/-- `String.prototype.trim`: leading and trailing whitespace removed. -/
def jsTrim (s : String) : String :=
  ((s.toList.dropWhile Char.isWhitespace).reverse.dropWhile
      Char.isWhitespace).reverse.asString

/-- One entry of the chat transcript. Timestamps (`new Date()`) are
modelled as naturals supplied by the caller. -/
structure ChatMessage where
  sender : String
  text : String
  timestamp : Nat
  isError : Bool
  deriving Repr, DecidableEq

/-- The chat-flow state of `PatientChat`: transcript, input box and the
in-flight flag. -/
structure ChatState where
  messages : List ChatMessage
  query : String
  isQueryLoading : Bool
  deriving Repr, DecidableEq

/-- `handleQuerySubmit` up to its suspension point (`PatientChat.js` lines
49–57): rejected as a no-op when the input is blank after trimming or a
submission is in flight; otherwise the user message is appended, loading is
set, the input cleared, and the query request is issued. The returned
Boolean records whether the request was issued. -/
def handleQuerySubmit (s : ChatState) (now : Nat) : ChatState × Bool :=
  if jsTrim s.query = "" || s.isQueryLoading then
    (s, false)
  else
    ({ messages := s.messages ++ [⟨"user", s.query, now, false⟩],
       query := "", isQueryLoading := true }, true)

/-- A document reference as returned by `/documents/{name}`; `category` may
be absent. -/
structure DocumentRef where
  filename : String
  path : String
  category : Option String
  deriving Repr, DecidableEq

/-- The document-list state of `PatientChat`: modal visibility, the held
list, its loading flag and the document error message. -/
structure DocListState where
  isModalOpen : Bool
  documents : List DocumentRef
  isLoadingDocs : Bool
  docError : String
  deriving Repr, DecidableEq

/-- `openDocumentsModal` up to its suspension point (`PatientChat.js` lines
90–94): open the modal; when documents are already held
(`documents.length > 0`) return without a request, otherwise set loading,
clear the error and issue the list request. The returned Boolean records
whether the request was issued. -/
def openDocumentsModal (s : DocListState) : DocListState × Bool :=
  let s1 := { s with isModalOpen := true }
  if s.documents.length > 0 then
    (s1, false)
  else
    ({ s1 with isLoadingDocs := true, docError := "" }, true)

/-- The success continuation of the list request (`PatientChat.js` lines
98–100, 105): store the list, flag the zero-document case as a UI message,
clear loading. -/
def resolveDocumentsOk (s : DocListState) (docsList : List DocumentRef) :
    DocListState :=
  { s with documents := docsList,
           docError :=
             if docsList.length = 0 then "No documents found for this patient."
             else s.docError,
           isLoadingDocs := false }

/-- The failure continuation of the list request (`PatientChat.js` lines
101–105): record the error message, clear loading; the held list is left as
it was (still empty after a failed first load). -/
def resolveDocumentsErr (s : DocListState) (msg : String) : DocListState :=
  { s with docError := msg, isLoadingDocs := false }

/-- Appending a document to the group stored under a key: an existing group
keeps its position and gains the document at its end, a fresh key adds its
group at the end (JavaScript object keys enumerate in insertion order). -/
def pushDocAt : List (String × List DocumentRef) → String → DocumentRef →
    List (String × List DocumentRef)
  | [], cat, doc => [(cat, [doc])]
  | g :: gs, cat, doc =>
      if g.1 = cat then (g.1, g.2 ++ [doc]) :: gs
      else g :: pushDocAt gs cat doc

/-- One step of the `documents.reduce` grouping (`PatientChat.js` lines
146–151): `groups[cat] = groups[cat] || []; groups[cat].push(doc)` with
`cat = doc.category || 'Other'`. -/
def insertGrouped (groups : List (String × List DocumentRef))
    (doc : DocumentRef) : List (String × List DocumentRef) :=
  pushDocAt groups (jsOrElse doc.category "Other") doc

/-- `groupedDocuments`: the pure per-render grouping of the current
document list by category. -/
def groupedDocuments (documents : List DocumentRef) :
    List (String × List DocumentRef) :=
  documents.foldl insertGrouped []

/-- The group stored under a category name (`groups[cat]`), empty when the
name is not a key of the grouped view. -/
def groupLookup : List (String × List DocumentRef) → String → List DocumentRef
  | [], _ => []
  | g :: gs, cat => if g.1 = cat then g.2 else groupLookup gs cat

/-- Removal of all whitespace, modelling `replace(/\s+/g, '')`. -/
def stripWhitespace (s : String) : String :=
  (s.toList.filter (fun c => !c.isWhitespace)).asString

/-- The per-item class string of the document list,
`doc-item ${doc.category.toLowerCase().replace(/\s+/g, '')}`
(`PatientChat.js` line 260). The result is `none` exactly when
`doc.category` is absent: the member access `undefined.toLowerCase()`
throws a TypeError, so no string is produced. -/
def docItemClass (doc : DocumentRef) : Option String :=
  doc.category.map (fun s => "doc-item " ++ stripWhitespace s.toLower)

/-- The currently viewed document of `PatientChat`
(`{filename, content, classification}`). -/
structure SelectedDoc where
  filename : String
  content : String
  classification : String
  deriving Repr, DecidableEq

/-- The document-content flow state: the single selected-document slot, the
document error message, the content requests in flight, and — as
specification ghost state — the most recently selected document. -/
structure DocContentState where
  selectedDoc : Option SelectedDoc
  docError : String
  pendingDocs : List DocumentRef
  lastViewed : Option DocumentRef
  deriving Repr, DecidableEq

/-- Initial document-content state: no document selected. -/
def initDocContent : DocContentState :=
  { selectedDoc := none, docError := "", pendingDocs := [], lastViewed := none }

/-- `viewDocumentContent(doc)` up to its suspension point (`PatientChat.js`
lines 110–118): the slot is set to the loading placeholder for `doc`, the
error is cleared and the content request for `doc.path` is issued.
`lastViewed` records the selection. -/
def viewDocumentContent (s : DocContentState) (doc : DocumentRef) :
    DocContentState :=
  { selectedDoc := some ⟨doc.filename, "Loading...", ""⟩,
    docError := "",
    pendingDocs := s.pendingDocs ++ [doc],
    lastViewed := some doc }

/-- The success continuation of a content request (`PatientChat.js` line
121): the slot is overwritten with the captured document's data — no check
against the currently selected document. The continuation only exists for a
request actually in flight. -/
def viewDocumentContentOk (s : DocContentState) (doc : DocumentRef)
    (content classifn : String) : DocContentState :=
  if doc ∈ s.pendingDocs then
    { s with selectedDoc := some ⟨doc.filename, content, classifn⟩,
             pendingDocs := s.pendingDocs.erase doc }
  else s

/-- The failure continuation of a content request (`PatientChat.js` lines
122–126): the slot is overwritten with the error placeholder for the
captured document, again without an identity check. -/
def viewDocumentContentErr (s : DocContentState) (doc : DocumentRef)
    (msg : String) : DocContentState :=
  if doc ∈ s.pendingDocs then
    { s with docError := msg,
             selectedDoc :=
               some ⟨doc.filename, "Error loading content. Please try again.", ""⟩,
             pendingDocs := s.pendingDocs.erase doc }
  else s

/-! Helper lemmas, shared by the claim theorems below. -/

/-- Reading back one encoded cache entry recovers the entry. -/
theorem decodeEntry_encodeEntry (e : CacheEntry) :
    decodeEntry (encodeEntry e) = some e := by
  cases e with
  | sentinel => rfl
  | profile p => rfl

/-- Reading back the encoded fields of a cache mapping recovers the
mapping. -/
theorem decodeEntries_encode (m : List (String × CacheEntry)) :
    decodeEntries (m.map (fun kv => (kv.1, encodeEntry kv.2))) = some m := by
  induction m with
  | nil => rfl
  | cons kv rest ih => simp [decodeEntries, decodeEntry_encodeEntry, ih]

/-- Reading back the serialized cache mapping recovers the mapping. -/
theorem decodeCache_encodeCache (m : List (String × CacheEntry)) :
    decodeCache (encodeCache m) = some m := by
  simp [decodeCache, encodeCache, decodeEntries_encode]

/-- A single cache write leaves durable storage holding exactly the
serialization of the in-memory mapping. -/
theorem loadFromStorage_put (s : AppState) (id : String) (v : CacheEntry) :
    loadFromStorage (put s id v).storage =
      encodeCache (put s id v).profileCache :=
  rfl

/-- Any sequence of cache writes preserves "storage reloads to the
serialized in-memory mapping". -/
theorem applyPuts_roundtrip_aux (writes : List (String × CacheEntry))
    (s : AppState) (h : loadFromStorage s.storage = encodeCache s.profileCache) :
    loadFromStorage (applyPuts s writes).storage =
      encodeCache (applyPuts s writes).profileCache := by
  induction writes generalizing s with
  | nil => exact h
  | cons kv rest ih =>
      simpa [applyPuts] using ih (put s kv.1 kv.2) (loadFromStorage_put s kv.1 kv.2)

/-- The string-or-default idiom never yields the empty string when the
default is nonempty. -/
theorem jsOrElse_ne_empty (x : Option String) (d : String) (hd : d ≠ "") :
    jsOrElse x d ≠ "" := by
  cases x with
  | none => simpa [jsOrElse] using hd
  | some s => by_cases h : s = "" <;> simp [jsOrElse, h, hd]

/-- Lookup after one grouping step: the group under the pushed key gains the
document at its end, every other group is unchanged. -/
theorem groupLookup_pushDocAt (gs : List (String × List DocumentRef))
    (cat k : String) (d : DocumentRef) :
    groupLookup (pushDocAt gs cat d) k =
      if cat = k then groupLookup gs k ++ [d] else groupLookup gs k := by
  induction gs with
  | nil =>
      by_cases h : cat = k <;> simp [pushDocAt, groupLookup, h]
  | cons g rest ih =>
      by_cases hg : g.1 = cat
      · by_cases hk : cat = k
        · simp [pushDocAt, groupLookup, hg, hk ▸ hg, hk]
        · have : ¬ g.1 = k := fun hh => hk (hg ▸ hh)
          simp [pushDocAt, groupLookup, hg, this, hk]
      · by_cases hk : g.1 = k
        · have h1 : ¬ cat = k := fun hh => hg (hh ▸ hk)
          have h2 : ¬ k = cat := fun hh => h1 hh.symm
          simp [pushDocAt, groupLookup, hg, hk, h1, h2]
        · simp [pushDocAt, groupLookup, hg, hk, ih]

/-- Grouping steps never remove a document from a group. -/
theorem mem_groupLookup_foldl_of_mem (docs : List DocumentRef)
    (gs : List (String × List DocumentRef)) (k : String) (d : DocumentRef)
    (h : d ∈ groupLookup gs k) :
    d ∈ groupLookup (docs.foldl insertGrouped gs) k := by
  induction docs generalizing gs with
  | nil => exact h
  | cons doc rest ih =>
      refine List.foldl_cons .. ▸ ih (insertGrouped gs doc) ?_
      rw [insertGrouped, groupLookup_pushDocAt]
      split
      · exact List.mem_append_left _ h
      · exact h

/-- Every document of the list ends up in the group under its key. -/
theorem mem_groupLookup_foldl (docs : List DocumentRef)
    (gs : List (String × List DocumentRef)) (d : DocumentRef) (h : d ∈ docs) :
    d ∈ groupLookup (docs.foldl insertGrouped gs) (jsOrElse d.category "Other") := by
  induction docs generalizing gs with
  | nil => cases h
  | cons doc rest ih =>
      rcases List.mem_cons.mp h with rfl | hmem
      · refine List.foldl_cons .. ▸
          mem_groupLookup_foldl_of_mem rest (insertGrouped gs d) _ d ?_
        rw [insertGrouped, groupLookup_pushDocAt]
        simp
      · exact List.foldl_cons .. ▸ ih (insertGrouped gs doc) hmem

/-- Selecting an id whose cache lookup is absent: the selection is
recorded and a profile request is issued. -/
theorem handlePatientSelect_none (s : AppState) (id : String)
    (h : lookupKey s.profileCache id = none) :
    handlePatientSelect s id =
      { s with selectedPatient := some id, pending := s.pending ++ [id],
               fetchLog := s.fetchLog ++ [id] } := by
  unfold handlePatientSelect
  simp [h]

/-! Claim theorems. -/

/-- The App state at the C1 failing input: the failed-fetch sentinel is
cached for "Jane Doe" (a fetch was attempted and failed). -/
def sentinelCachedState : AppState :=
  { initApp with profileCache := [("Jane Doe", .sentinel)] }

/-- C1: with the failed-fetch sentinel cached for "Jane Doe", re-selecting
"Jane Doe" DOES issue a new profile request — `!profileCache[patientName]`
is true for the `null` sentinel, so `fetchAndCacheProfile` runs again,
contradicting the claim and the source comment "Cache null on error to
prevent refetching". -/
theorem handlePatientSelect_sentinel_refetches :
    lookupKey sentinelCachedState.profileCache "Jane Doe" =
      some CacheEntry.sentinel ∧
    (handlePatientSelect sentinelCachedState "Jane Doe").fetchLog =
      ["Jane Doe"] :=
  ⟨rfl, rfl⟩

/-- C2 counterexample: from an empty cache, selecting "Jane Doe" and then
selecting "Jane Doe" again while the first profile fetch is still in
flight issues a second request — the request log of the run has two
entries, not one. -/
theorem select_while_inflight_second_fetch_cex :
    (runApp initApp [.select "Jane Doe", .select "Jane Doe"]).fetchLog =
      ["Jane Doe", "Jane Doe"] ∧
    (runApp initApp [.select "Jane Doe", .select "Jane Doe"]).pending =
      ["Jane Doe", "Jane Doe"] :=
  ⟨rfl, rfl⟩

/-- C2 (amended): selecting a never-attempted id issues exactly one profile
request per selection, but the guard consults only the cache — selecting
the id again while that fetch is still in flight (no cache write has
happened yet) issues a second request. -/
theorem handlePatientSelect_uncached (s : AppState) (id : String)
    (h : lookupKey s.profileCache id = none) :
    (handlePatientSelect s id).fetchLog = s.fetchLog ++ [id] ∧
    (handlePatientSelect (handlePatientSelect s id) id).fetchLog =
      s.fetchLog ++ [id, id] := by
  have h1 := handlePatientSelect_none s id h
  have h2 : lookupKey (handlePatientSelect s id).profileCache id = none := by
    rw [h1]; exact h
  have h3 := handlePatientSelect_none _ id h2
  constructor
  · rw [h1]
  · rw [h3, h1]; simp

/-- Witness for `handlePatientSelect_uncached`: from the initial state, two
selections of "Jane Doe" with no resolution in between log two requests. -/
theorem handlePatientSelect_uncached_witness :
    (handlePatientSelect (handlePatientSelect initApp "Jane Doe")
        "Jane Doe").fetchLog = ["Jane Doe", "Jane Doe"] := by
  simpa using (handlePatientSelect_uncached initApp "Jane Doe" rfl).2

/-- First document of the C3 failing trace. -/
def docAlpha : DocumentRef := ⟨"alpha.pdf", "reports/alpha.pdf", some "Labs"⟩

/-- Second document of the C3 failing trace. -/
def docBeta : DocumentRef := ⟨"beta.pdf", "reports/beta.pdf", some "Notes"⟩

/-- The document-content state after: request content of alpha, select beta
while alpha's request is still in flight, then alpha's response arrives
late. -/
def staleContentTrace : DocContentState :=
  viewDocumentContentOk
    (viewDocumentContent (viewDocumentContent initDocContent docAlpha) docBeta)
    docAlpha "alpha document text" "Lab Report"

/-- C3: the late response for alpha is NOT discarded — although beta is the
most recently selected document, the selected-document slot ends up holding
alpha's content, because the success continuation of `viewDocumentContent`
overwrites the slot with no identity check against the current
selection. -/
theorem viewDocumentContent_stale_overwrite :
    staleContentTrace.lastViewed = some docBeta ∧
    staleContentTrace.selectedDoc =
      some ⟨"alpha.pdf", "alpha document text", "Lab Report"⟩ ∧
    docAlpha.filename ≠ docBeta.filename := by
  refine ⟨rfl, rfl, by decide⟩

/-- C4: any sequence of cache writes, each a profile summary or the failed
sentinel, leaves durable storage holding one serialized unit: reloading
installs exactly the serialization of the in-memory mapping, and reading
that value back as the typed mapping recovers the in-memory mapping — the
writes followed by `loadFromStorage` round-trip the whole map. -/
theorem put_loadFromStorage_roundtrip (writes : List (String × CacheEntry)) :
    loadFromStorage (applyPuts initApp writes).storage =
      encodeCache (applyPuts initApp writes).profileCache ∧
    decodeCache (loadFromStorage (applyPuts initApp writes).storage) =
      some (applyPuts initApp writes).profileCache := by
  have h := applyPuts_roundtrip_aux writes initApp rfl
  exact ⟨h, by rw [h, decodeCache_encodeCache]⟩

/-- A well-formed JSON payload that is not the cache mapping: its
"Jane Doe" entry is an object carrying none of the summary fields. -/
def junkPayload : Json :=
  Json.obj [("Jane Doe", Json.obj [("x", Json.num 1)])]

/-- C5 counterexample: a payload that parses as JSON but is not parseable
as the cache mapping is NOT replaced by the empty mapping — the load
installs it as the cache unvalidated, and its "Jane Doe" entry is present
and truthy, so a later selection of "Jane Doe" would issue no profile
fetch; no error is raised or logged on this path. -/
theorem loadFromStorage_junk_installed_cex :
    decodeCache junkPayload = none ∧
    loadFromStorage (.parsed junkPayload) = junkPayload ∧
    loadFromStorage (.parsed junkPayload) ≠ Json.obj [] ∧
    jsGet (loadFromStorage (.parsed junkPayload)) "Jane Doe" =
      some (Json.obj [("x", Json.num 1)]) ∧
    Json.truthy (Json.obj [("x", Json.num 1)]) = true := by
  refine ⟨rfl, rfl, ?_, rfl, rfl⟩
  intro h
  injection h with h'
  exact List.cons_ne_nil _ _ h'

/-- C5 (amended): a persisted payload `JSON.parse` rejects is caught, only
logged, and startup proceeds with the empty mapping — likewise when
nothing is stored; but a payload that parses is installed as the cache
exactly as parsed, with no validation. -/
theorem loadFromStorage_parse_failure_empty (s : String) :
    loadFromStorage (.malformed s) = Json.obj [] ∧
    loadFromStorage .absent = Json.obj [] ∧
    (∀ j : Json, loadFromStorage (.parsed j) = j) :=
  ⟨rfl, rfl, fun _ => rfl⟩

/-- C6: a chat submission with blank (empty or whitespace-only) input, or
made while a prior submission is in flight, is a no-op: the transcript,
input and loading flag are unchanged and no query request is issued. -/
theorem handleQuerySubmit_noop (s : ChatState) (now : Nat)
    (h : jsTrim s.query = "" ∨ s.isQueryLoading = true) :
    handleQuerySubmit s now = (s, false) := by
  rcases h with h | h <;> simp [handleQuerySubmit, h]

/-- Witness for `handleQuerySubmit_noop`: a whitespace-only submission and
a submission made while a prior one is pending both leave the state
unchanged and issue nothing. -/
theorem handleQuerySubmit_noop_witness :
    handleQuerySubmit ⟨[], "   ", false⟩ 0 = (⟨[], "   ", false⟩, false) ∧
    handleQuerySubmit ⟨[], "What medications?", true⟩ 5 =
      (⟨[], "What medications?", true⟩, false) :=
  ⟨handleQuerySubmit_noop _ 0 (Or.inl (by decide)),
   handleQuerySubmit_noop _ 5 (Or.inr rfl)⟩

/-- C7: opening the documents view issues the list request exactly when the
held list is empty: after a successful non-empty load no new request is
issued, after a load that returned zero documents reopening issues the
request again, and a failed load leaves the held list as it was (still
empty after a failed first load), so reopening also issues the request. -/
theorem openDocumentsModal_request_iff_empty (s : DocListState)
    (docsList : List DocumentRef) (msg : String) :
    (openDocumentsModal s).2 = s.documents.isEmpty ∧
    (openDocumentsModal (resolveDocumentsOk s docsList)).2 = docsList.isEmpty ∧
    (resolveDocumentsErr s msg).documents = s.documents := by
  refine ⟨?_, ?_, rfl⟩
  · cases h : s.documents <;> simp [openDocumentsModal, h]
  · cases h : docsList <;> simp [openDocumentsModal, resolveDocumentsOk, h]

/-- C8: the stored summary is always fully populated: each of the three
fields absent from the raw response is replaced by its human-readable
placeholder, no stored field is ever the empty string, and the response
carrying only `medication_summary: "Metformin"` yields "Metformin" for
medication plus the two placeholders. -/
theorem normalizeSummary_placeholders (data : RawSummaryResponse) :
    ((data.summary.bind (fun s => s.medication_summary)) = none →
      (normalizeSummary data).medication_summary = medicationPlaceholder) ∧
    ((data.summary.bind (fun s => s.lifestyle_recommendations)) = none →
      (normalizeSummary data).lifestyle_recommendations = lifestylePlaceholder) ∧
    ((data.summary.bind (fun s => s.condition_summary)) = none →
      (normalizeSummary data).condition_summary = conditionPlaceholder) ∧
    (normalizeSummary data).medication_summary ≠ "" ∧
    (normalizeSummary data).lifestyle_recommendations ≠ "" ∧
    (normalizeSummary data).condition_summary ≠ "" ∧
    normalizeSummary ⟨some ⟨some "Metformin", none, none⟩⟩ =
      ⟨"Metformin", lifestylePlaceholder, conditionPlaceholder⟩ := by
  refine ⟨?_, ?_, ?_, ?_, ?_, ?_, ?_⟩
  · intro h; simp [normalizeSummary, h, jsOrElse]
  · intro h; simp [normalizeSummary, h, jsOrElse]
  · intro h; simp [normalizeSummary, h, jsOrElse]
  · exact jsOrElse_ne_empty _ _ (by decide)
  · exact jsOrElse_ne_empty _ _ (by decide)
  · exact jsOrElse_ne_empty _ _ (by decide)
  · decide

/-- Witness for `normalizeSummary_placeholders` at the Metformin response:
the two absent fields show their placeholders, the stored medication field
is nonempty. -/
theorem normalizeSummary_placeholders_witness :
    (normalizeSummary ⟨some ⟨some "Metformin", none, none⟩⟩).lifestyle_recommendations
        = lifestylePlaceholder ∧
    (normalizeSummary ⟨some ⟨some "Metformin", none, none⟩⟩).condition_summary
        = conditionPlaceholder ∧
    (normalizeSummary ⟨some ⟨some "Metformin", none, none⟩⟩).medication_summary
        ≠ "" :=
  ⟨(normalizeSummary_placeholders _).2.1 rfl,
   (normalizeSummary_placeholders _).2.2.1 rfl,
   (normalizeSummary_placeholders _).2.2.2.1⟩

/-- The document of the C9 counterexample: a present but empty category. -/
def emptyCategoryDoc : DocumentRef := ⟨"f.txt", "p1", some ""⟩

/-- C9 counterexample: a document whose category is the present-but-empty
string is grouped under "Other" — the grouped view has no group named by
its category "". -/
theorem groupedDocuments_empty_category_cex :
    emptyCategoryDoc.category = some "" ∧
    groupedDocuments [emptyCategoryDoc] = [("Other", [emptyCategoryDoc])] ∧
    groupLookup (groupedDocuments [emptyCategoryDoc]) "" = [] :=
  ⟨rfl, rfl, rfl⟩

/-- The three documents of the grouping example: two "Labs", one without a
category. -/
def labsDocs : List DocumentRef :=
  [⟨"a.pdf", "p1", some "Labs"⟩, ⟨"b.pdf", "p2", some "Labs"⟩,
   ⟨"c.pdf", "p3", none⟩]

/-- C9 (amended): grouping is pure in the document list; every document
lands in the group keyed `category || "Other"` — the group named by its
category when that is nonempty, "Other" when the category is absent or
empty; the Labs example yields exactly the groups "Labs" (2 items) and
"Other" (1 item). -/
theorem groupedDocuments_spec (docs : List DocumentRef) (d : DocumentRef)
    (hmem : d ∈ docs) :
    d ∈ groupLookup (groupedDocuments docs) (jsOrElse d.category "Other") ∧
    (∀ c : String, c ≠ "" → jsOrElse (some c) "Other" = c) ∧
    groupedDocuments labsDocs =
      [("Labs", [⟨"a.pdf", "p1", some "Labs"⟩, ⟨"b.pdf", "p2", some "Labs"⟩]),
       ("Other", [⟨"c.pdf", "p3", none⟩])] := by
  refine ⟨mem_groupLookup_foldl docs [] d hmem, ?_, rfl⟩
  intro c hc
  simp [jsOrElse, hc]

/-- Witness for `groupedDocuments_spec` at the Labs example and its first
document. -/
theorem groupedDocuments_spec_witness :
    (⟨"a.pdf", "p1", some "Labs"⟩ : DocumentRef) ∈
      groupLookup (groupedDocuments labsDocs)
        (jsOrElse (some "Labs") "Other") :=
  (groupedDocuments_spec labsDocs ⟨"a.pdf", "p1", some "Labs"⟩ (by decide)).1

/-- C10: rendering the grouped "Other" items is not total — for any
document list containing a document with no category, the grouping places
that document under "Other", yet computing its display class string
dereferences the absent category (`doc.category.toLowerCase()` on
`undefined`) and produces no string. -/
theorem docItemClass_absent_category (docs : List DocumentRef)
    (d : DocumentRef) (hmem : d ∈ docs) (hcat : d.category = none) :
    docItemClass d = none ∧
    d ∈ groupLookup (groupedDocuments docs) "Other" := by
  constructor
  · simp [docItemClass, hcat]
  · have hkey : jsOrElse d.category "Other" = "Other" := by
      simp [jsOrElse, hcat]
    simpa [groupedDocuments, hkey] using mem_groupLookup_foldl docs [] d hmem

/-- Witness for `docItemClass_absent_category` at a one-document list. -/
theorem docItemClass_absent_category_witness :
    docItemClass ⟨"c.pdf", "p3", none⟩ = none ∧
    (⟨"c.pdf", "p3", none⟩ : DocumentRef) ∈
      groupLookup (groupedDocuments [⟨"c.pdf", "p3", none⟩]) "Other" :=
  docItemClass_absent_category [⟨"c.pdf", "p3", none⟩] _ (by decide) rfl

end DemoMymr
